import Mathlib

/-!
Verification development for the Alien Invasion performance profiler
(src/performance_profiler.py).  Timestamps and metric samples are modelled
as exact rationals; the three rolling sample buffers (Python
collections.deque with maxlen) are lists with an explicit capped append;
the fallible OS metric queries of end_frame are passed in as Except
values, and end_frame reports the raised exception (if any) next to the
resulting state, matching Python in-place mutation plus exception
propagation.
-/

/-- Round a rational to the nearest integer, ties to even, matching the
rounding CPython uses when formatting floats with a fixed precision. -/
def roundHalfEven (q : ℚ) : ℤ :=
  let f := ⌊q⌋
  let r := q - (f : ℚ)
  if r < 1/2 then f
  else if 1/2 < r then f + 1
  else if f % 2 = 0 then f else f + 1

/-- Decimal digits of a natural number, left padded with zeros to a given
width. -/
def natPad (width : ℕ) (n : ℕ) : String :=
  let ds := toString n
  String.mk (List.replicate (width - ds.length) '0') ++ ds

/-- Fixed point decimal rendering of a rational with a given number of
fractional digits, as the Python format specifier .1f or .2f produces
for the values of this program. -/
def formatFixed (prec : ℕ) (q : ℚ) : String :=
  let scaled := roundHalfEven (q * (10 : ℚ) ^ prec)
  let sign := if scaled < 0 then "-" else ""
  let m := scaled.natAbs
  if prec = 0 then sign ++ toString m
  else sign ++ toString (m / 10 ^ prec) ++ "." ++ natPad prec (m % 10 ^ prec)

/-- Python str.title over a character list: an alphabetic character that
follows a non alphabetic one is uppercased, every other alphabetic
character is lowercased.  The boolean records whether the previous
character was alphabetic. -/
def titleChars : Bool → List Char → List Char
  | _, [] => []
  | prevAlpha, c :: t =>
      if c.isAlpha then
        (if prevAlpha then c.toLower else c.toUpper) :: titleChars true t
      else c :: titleChars false t

/-- Python str.title on a string. -/
def pythonTitle (t : String) : String :=
  String.mk (titleChars false t.data)

/-- Python str.replace of underscores by spaces, as used when deriving
report labels. -/
def underscoresToSpaces (t : String) : String :=
  String.mk (t.data.map (fun c => if c = '_' then ' ' else c))

/-- Substring test on character lists: Python needle in hay. -/
def listContainsSub (needle : List Char) : List Char → Bool
  | [] => needle.isEmpty
  | c :: t => needle.isPrefixOf (c :: t) || listContainsSub needle t

/-- Python membership test needle in hay on strings. -/
def strContainsSub (hay needle : String) : Bool :=
  listContainsSub needle.data hay.data

/-- Python str.lower. -/
def strLower (t : String) : String :=
  String.mk (t.data.map Char.toLower)

/-- Append to a collections.deque with maxlen capacity: the value goes to
the back and, past capacity, the oldest entries are dropped from the
front. -/
def dequeAppend (maxlen : ℕ) (xs : List ℚ) (x : ℚ) : List ℚ :=
  let ys := xs ++ [x]
  ys.drop (ys.length - maxlen)

/-- State of src/performance_profiler.py class PerformanceProfiler: the
three rolling windows, the two timestamps, the cumulative frame counter
and the three warning thresholds set by the constructor. -/
structure PerformanceProfiler where
  max_samples : ℕ
  frame_times : List ℚ
  memory_usage : List ℚ
  cpu_usage : List ℚ
  last_frame_time : ℚ
  start_time : ℚ
  frame_count : ℕ
  fps_warning_threshold : ℚ
  memory_warning_threshold : ℚ
  cpu_warning_threshold : ℚ
  deriving DecidableEq

namespace PerformanceProfiler

/-- Constructor: empty windows, both timestamps set to the current time,
frame counter zero, thresholds 30 fps, 100 MB, 80 percent. -/
def init (max_samples : ℕ) (now : ℚ) : PerformanceProfiler :=
  { max_samples := max_samples
    frame_times := []
    memory_usage := []
    cpu_usage := []
    last_frame_time := now
    start_time := now
    frame_count := 0
    fps_warning_threshold := 30
    memory_warning_threshold := 100
    cpu_warning_threshold := 80 }

/-- start_frame: on every call but the first, append the elapsed time
since the previous call to the frame time window; always refresh
last_frame_time and increment frame_count.  The current wall clock
reading is the explicit argument now. -/
def start_frame (s : PerformanceProfiler) (now : ℚ) : PerformanceProfiler :=
  let s1 :=
    if s.frame_count > 0 then
      { s with frame_times :=
          dequeAppend s.max_samples s.frame_times (now - s.last_frame_time) }
    else s
  { s1 with last_frame_time := now, frame_count := s.frame_count + 1 }

/-- end_frame: query the process memory footprint, append it, then query
the CPU percentage and append it.  Each query is passed in as an Except
value standing for the psutil call; the Python body has no handler, so a
raised exception aborts the remaining appends and travels to the caller,
while appends already performed survive (in place mutation).  The result
pairs the state after the call with the propagated exception, if any. -/
def end_frame (s : PerformanceProfiler) (memQuery cpuQuery : Except String ℚ) :
    PerformanceProfiler × Option String :=
  match memQuery with
  | .error e => (s, some e)
  | .ok memory_mb =>
      let s1 := { s with memory_usage :=
                    dequeAppend s.max_samples s.memory_usage memory_mb }
      match cpuQuery with
      | .error e => (s1, some e)
      | .ok cpu_percent =>
          ({ s1 with cpu_usage :=
              dequeAppend s1.max_samples s1.cpu_usage cpu_percent }, none)

/-- get_fps: zero on an empty window, else the reciprocal of the mean
frame time when that mean is positive, zero otherwise. -/
def get_fps (s : PerformanceProfiler) : ℚ :=
  if s.frame_times = [] then 0
  else
    let avg_frame_time := s.frame_times.sum / (s.frame_times.length : ℚ)
    if avg_frame_time > 0 then 1 / avg_frame_time else 0

/-- get_average_frame_time: mean frame time in milliseconds, zero on an
empty window. -/
def get_average_frame_time (s : PerformanceProfiler) : ℚ :=
  if s.frame_times = [] then 0
  else s.frame_times.sum / (s.frame_times.length : ℚ) * 1000

/-- get_memory_usage: most recent memory sample, zero when none exists. -/
def get_memory_usage (s : PerformanceProfiler) : ℚ :=
  match s.memory_usage.getLast? with
  | some v => v
  | none => 0

/-- get_cpu_usage: most recent CPU sample, zero when none exists. -/
def get_cpu_usage (s : PerformanceProfiler) : ℚ :=
  match s.cpu_usage.getLast? with
  | some v => v
  | none => 0

/-- get_performance_summary: insertion ordered dictionary of the six
summary fields, modelled as an association list.  The current wall clock
reading is the explicit argument now. -/
def get_performance_summary (s : PerformanceProfiler) (now : ℚ) :
    List (String × ℚ) :=
  [ ("fps", s.get_fps)
  , ("avg_frame_time_ms", s.get_average_frame_time)
  , ("memory_mb", s.get_memory_usage)
  , ("cpu_percent", s.get_cpu_usage)
  , ("total_frames", (s.frame_count : ℚ))
  , ("runtime_seconds", now - s.start_time) ]

/-- check_performance_warnings: build the warning list by running the
FPS, memory and CPU checks in that order, each appending one formatted
message when its strict comparison against the threshold holds. -/
def check_performance_warnings (s : PerformanceProfiler) : List String :=
  let warnings : List String := []
  let fps := s.get_fps
  let warnings :=
    if fps < s.fps_warning_threshold then
      warnings ++ ["Low FPS detected: " ++ formatFixed 1 fps ++ " (target: 60+)"]
    else warnings
  let memory := s.get_memory_usage
  let warnings :=
    if memory > s.memory_warning_threshold then
      warnings ++ ["High memory usage: " ++ formatFixed 1 memory ++ "MB"]
    else warnings
  let cpu := s.get_cpu_usage
  let warnings :=
    if cpu > s.cpu_warning_threshold then
      warnings ++ ["High CPU usage: " ++ formatFixed 1 cpu ++ "%"]
    else warnings
  warnings

/-- optimize_performance: scan the current warnings, case insensitively,
for the substrings memory, fps and cpu, in that order, and emit one
suggestion per category found.  The number of objects the garbage
collector reports as freed is the explicit argument gcCollected. -/
def optimize_performance (s : PerformanceProfiler) (gcCollected : ℕ) :
    List String :=
  let warnings := s.check_performance_warnings
  let optimizations : List String := []
  let optimizations :=
    if warnings.any (fun w => strContainsSub (strLower w) "memory") then
      optimizations ++
        ["Garbage collection freed " ++ toString gcCollected ++ " objects"]
    else optimizations
  let optimizations :=
    if warnings.any (fun w => strContainsSub (strLower w) "fps") then
      optimizations ++ ["Consider reducing screen resolution or visual effects"]
    else optimizations
  let optimizations :=
    if warnings.any (fun w => strContainsSub (strLower w) "cpu") then
      optimizations ++ ["Consider optimizing game logic or reducing entity count"]
    else optimizations
  optimizations

/-- export_performance_data: the exact text written to the report file:
header, one line per summary field labelled by the title cased field
name with two decimal places, then the warnings section, then the
suggestions section, each with its fixed fallback line when empty. -/
def export_performance_data (s : PerformanceProfiler) (now : ℚ)
    (gcCollected : ℕ) : String :=
  let header :=
    "Alien Invasion Performance Report\n" ++
      String.mk (List.replicate 40 '=') ++ "\n\n"
  let summaryLines :=
    String.join ((s.get_performance_summary now).map (fun kv =>
      pythonTitle (underscoresToSpaces kv.1) ++ ": " ++
        formatFixed 2 kv.2 ++ "\n"))
  let warnings := s.check_performance_warnings
  let warningSection :=
    "\nPerformance Warnings:\n" ++
      (if warnings.isEmpty then "No performance issues detected.\n"
       else String.join (warnings.map (fun w => "- " ++ w ++ "\n")))
  let optimizations := s.optimize_performance gcCollected
  let optimizationSection :=
    "\nOptimization Suggestions:\n" ++
      (if optimizations.isEmpty then "No optimizations needed.\n"
       else String.join (optimizations.map (fun o => "- " ++ o ++ "\n")))
  header ++ summaryLines ++ warningSection ++ optimizationSection

end PerformanceProfiler

/-- A state mutating profiler call: a start_frame at some timestamp, or
an end_frame whose two OS queries succeed with the given readings. -/
inductive ProfilerOp where
  | startFrame (t : ℚ)
  | endFrame (mem cpu : ℚ)
  deriving DecidableEq

/-- Run one mutating call against the profiler state. -/
def applyOp (s : PerformanceProfiler) : ProfilerOp → PerformanceProfiler
  | .startFrame t => s.start_frame t
  | .endFrame m c => (s.end_frame (.ok m) (.ok c)).1

/-- Run a sequence of mutating calls from a state. -/
def runOps (s : PerformanceProfiler) (ops : List ProfilerOp) :
    PerformanceProfiler :=
  ops.foldl applyOp s

/-- Run a sequence of start_frame calls at the given timestamps. -/
def runStarts (s : PerformanceProfiler) (ts : List ℚ) : PerformanceProfiler :=
  ts.foldl PerformanceProfiler.start_frame s

/-- Whether a mutating call is a start_frame. -/
def ProfilerOp.isStart : ProfilerOp → Bool
  | .startFrame _ => true
  | .endFrame _ _ => false

lemma dequeAppend_length (maxlen : ℕ) (xs : List ℚ) (x : ℚ) :
    (dequeAppend maxlen xs x).length = min (xs.length + 1) maxlen := by
  simp [dequeAppend]
  omega

lemma dequeAppend_length_le (maxlen : ℕ) (xs : List ℚ) (x : ℚ) :
    (dequeAppend maxlen xs x).length ≤ maxlen := by
  simp [dequeAppend]
  omega

lemma dequeAppend_drop (maxlen : ℕ) (ys : List ℚ) (v : ℚ) :
    dequeAppend maxlen (ys.drop (ys.length - maxlen)) v =
      (ys ++ [v]).drop ((ys.length + 1) - maxlen) := by
  unfold dequeAppend
  rw [← List.drop_append_of_le_length (by omega), List.drop_drop]
  congr 1
  simp
  omega

lemma foldl_dequeAppend_drop (maxlen : ℕ) (vs : List ℚ) :
    ∀ ys : List ℚ,
      vs.foldl (dequeAppend maxlen) (ys.drop (ys.length - maxlen)) =
        (ys ++ vs).drop ((ys ++ vs).length - maxlen) := by
  induction vs with
  | nil => intro ys; simp
  | cons v vs ih =>
      intro ys
      have h1 := dequeAppend_drop maxlen ys v
      have h2 := ih (ys ++ [v])
      simp only [List.foldl_cons, h1]
      simp only [List.length_append, List.length_cons, List.length_nil,
        Nat.zero_add, List.append_assoc, List.singleton_append] at h2 ⊢
      exact h2

lemma foldl_dequeAppend_nil (maxlen : ℕ) (vs : List ℚ) :
    vs.foldl (dequeAppend maxlen) [] = vs.drop (vs.length - maxlen) := by
  have h := foldl_dequeAppend_drop maxlen vs []
  simpa using h

lemma start_frame_fields (s : PerformanceProfiler) (t : ℚ) :
    (s.start_frame t).max_samples = s.max_samples ∧
    (s.start_frame t).frame_count = s.frame_count + 1 ∧
    (s.start_frame t).memory_usage = s.memory_usage ∧
    (s.start_frame t).cpu_usage = s.cpu_usage ∧
    (s.start_frame t).last_frame_time = t ∧
    (s.start_frame t).frame_times =
      (if s.frame_count > 0 then
        dequeAppend s.max_samples s.frame_times (t - s.last_frame_time)
       else s.frame_times) := by
  unfold PerformanceProfiler.start_frame
  split <;> simp

lemma runStarts_frame_count (ts : List ℚ) :
    ∀ s : PerformanceProfiler, (runStarts s ts).frame_count = s.frame_count + ts.length := by
  induction ts with
  | nil => intro s; simp [runStarts]
  | cons t ts ih =>
      intro s
      have h := ih (s.start_frame t)
      simp only [runStarts, List.foldl_cons] at h ⊢
      rw [h, (start_frame_fields s t).2.1]
      simp only [List.length_cons]
      omega

lemma runStarts_window_length (ts : List ℚ) :
    ∀ s : PerformanceProfiler, 0 < s.frame_count →
      s.frame_times.length ≤ s.max_samples →
      (runStarts s ts).frame_times.length =
        min (s.frame_times.length + ts.length) s.max_samples := by
  induction ts with
  | nil => intro s _ h2; simp [runStarts]; omega
  | cons t ts ih =>
      intro s h1 h2
      obtain ⟨hmax, hcount, -, -, -, hwin⟩ := start_frame_fields s t
      have hwin' : (s.start_frame t).frame_times =
          dequeAppend s.max_samples s.frame_times (t - s.last_frame_time) := by
        rw [hwin, if_pos h1]
      have hlen : (s.start_frame t).frame_times.length =
          min (s.frame_times.length + 1) s.max_samples := by
        rw [hwin', dequeAppend_length]
      have h := ih (s.start_frame t) (by omega) (by rw [hlen, hmax]; omega)
      simp only [runStarts, List.foldl_cons] at h ⊢
      rw [h, hlen, hmax]
      simp only [List.length_cons]
      omega

lemma applyOp_fields (s : PerformanceProfiler) (op : ProfilerOp) :
    (applyOp s op).max_samples = s.max_samples ∧
    s.frame_count ≤ (applyOp s op).frame_count := by
  cases op with
  | startFrame t =>
      simp only [applyOp]
      obtain ⟨h1, h2, -⟩ := start_frame_fields s t
      exact ⟨h1, by omega⟩
  | endFrame m c => exact ⟨rfl, le_refl _⟩

lemma applyOp_window_le (s : PerformanceProfiler) (op : ProfilerOp)
    (h1 : s.frame_times.length ≤ s.max_samples)
    (h2 : s.memory_usage.length ≤ s.max_samples)
    (h3 : s.cpu_usage.length ≤ s.max_samples) :
    (applyOp s op).frame_times.length ≤ s.max_samples ∧
    (applyOp s op).memory_usage.length ≤ s.max_samples ∧
    (applyOp s op).cpu_usage.length ≤ s.max_samples := by
  cases op with
  | startFrame t =>
      simp only [applyOp]
      obtain ⟨-, -, hm, hc, -, hw⟩ := start_frame_fields s t
      refine ⟨?_, by rw [hm]; exact h2, by rw [hc]; exact h3⟩
      rw [hw]
      split
      · exact dequeAppend_length_le _ _ _
      · exact h1
  | endFrame m c =>
      refine ⟨h1, ?_, ?_⟩ <;>
        simp [applyOp, PerformanceProfiler.end_frame, dequeAppend_length_le]

lemma runOps_invariant (ops : List ProfilerOp) :
    ∀ s : PerformanceProfiler,
      s.frame_times.length ≤ s.max_samples →
      s.memory_usage.length ≤ s.max_samples →
      s.cpu_usage.length ≤ s.max_samples →
      (runOps s ops).max_samples = s.max_samples ∧
      (runOps s ops).frame_times.length ≤ s.max_samples ∧
      (runOps s ops).memory_usage.length ≤ s.max_samples ∧
      (runOps s ops).cpu_usage.length ≤ s.max_samples := by
  induction ops with
  | nil => intro s h1 h2 h3; exact ⟨rfl, h1, h2, h3⟩
  | cons op ops ih =>
      intro s h1 h2 h3
      obtain ⟨w1, w2, w3⟩ := applyOp_window_le s op h1 h2 h3
      have hmax := (applyOp_fields s op).1
      have h := ih (applyOp s op) (by rw [hmax]; exact w1) (by rw [hmax]; exact w2)
        (by rw [hmax]; exact w3)
      simp only [runOps, List.foldl_cons] at h ⊢
      rw [hmax] at h
      exact h

lemma runOps_frame_count (ops : List ProfilerOp) :
    ∀ s : PerformanceProfiler,
      (runOps s ops).frame_count =
        s.frame_count + ops.countP ProfilerOp.isStart := by
  induction ops with
  | nil => intro s; simp [runOps]
  | cons op ops ih =>
      intro s
      have h := ih (applyOp s op)
      simp only [runOps, List.foldl_cons] at h ⊢
      rw [h, List.countP_cons]
      cases op with
      | startFrame t =>
          simp only [applyOp]
          rw [(start_frame_fields s t).2.1]
          simp [ProfilerOp.isStart]
          omega
      | endFrame m c =>
          simp [applyOp, PerformanceProfiler.end_frame, ProfilerOp.isStart]

/-- C3: for every N at least 1, after N start_frame calls on a fresh
profiler with capacity maxSamples the frame duration window holds exactly
min (N - 1) maxSamples samples; the very first call records the timestamp
and increments frame_count but appends no duration sample. -/
theorem start_frame_window_count (maxSamples : ℕ) (t0 t : ℚ) (ts : List ℚ) :
    (runStarts (PerformanceProfiler.init maxSamples t0) (t :: ts)).frame_times.length =
        min ((t :: ts).length - 1) maxSamples ∧
    (runStarts (PerformanceProfiler.init maxSamples t0) (t :: ts)).frame_count =
        (t :: ts).length ∧
    ((PerformanceProfiler.init maxSamples t0).start_frame t).frame_times = [] ∧
    ((PerformanceProfiler.init maxSamples t0).start_frame t).frame_count = 1 ∧
    ((PerformanceProfiler.init maxSamples t0).start_frame t).last_frame_time = t := by
  have hfirst : (PerformanceProfiler.init maxSamples t0).start_frame t =
      { PerformanceProfiler.init maxSamples t0 with
          last_frame_time := t, frame_count := 1 } := by
    unfold PerformanceProfiler.start_frame PerformanceProfiler.init
    simp
  refine ⟨?_, ?_, ?_, ?_, ?_⟩
  · have hstep : runStarts (PerformanceProfiler.init maxSamples t0) (t :: ts) =
        runStarts ((PerformanceProfiler.init maxSamples t0).start_frame t) ts := rfl
    rw [hstep, hfirst]
    have h := runStarts_window_length ts
      { PerformanceProfiler.init maxSamples t0 with
          last_frame_time := t, frame_count := 1 }
      (by simp) (by simp [PerformanceProfiler.init])
    simp only [PerformanceProfiler.init] at h ⊢
    rw [h]
    simp
  · have h := runStarts_frame_count (t :: ts) (PerformanceProfiler.init maxSamples t0)
    simpa [PerformanceProfiler.init] using h
  · rw [hfirst]; simp [PerformanceProfiler.init]
  · rw [hfirst]
  · rw [hfirst]

/-- C6: for each of the three sample windows, after any sequence of
profiler calls the window length never exceeds maxSamples, and a sequence
of raw appends into a window keeps exactly the most recent maxSamples
values in arrival order, evicting the oldest first. -/
theorem window_capacity_and_fifo (maxSamples : ℕ) (t0 : ℚ)
    (ops : List ProfilerOp) (vs : List ℚ) :
    ((runOps (PerformanceProfiler.init maxSamples t0) ops).frame_times.length ≤ maxSamples ∧
     (runOps (PerformanceProfiler.init maxSamples t0) ops).memory_usage.length ≤ maxSamples ∧
     (runOps (PerformanceProfiler.init maxSamples t0) ops).cpu_usage.length ≤ maxSamples) ∧
    vs.foldl (dequeAppend maxSamples) [] = vs.drop (vs.length - maxSamples) := by
  refine ⟨?_, foldl_dequeAppend_nil _ _⟩
  have h := runOps_invariant ops (PerformanceProfiler.init maxSamples t0)
    (by simp [PerformanceProfiler.init]) (by simp [PerformanceProfiler.init])
    (by simp [PerformanceProfiler.init])
  exact ⟨h.2.1, h.2.2.1, h.2.2.2⟩

/-- C7: frame_count after any sequence of profiler calls on a fresh
profiler equals the number of start_frame calls in the sequence, and a
single profiler call never decreases frame_count. -/
theorem frame_count_counts_starts (maxSamples : ℕ) (t0 : ℚ)
    (ops : List ProfilerOp) (s : PerformanceProfiler) (op : ProfilerOp) :
    (runOps (PerformanceProfiler.init maxSamples t0) ops).frame_count =
        ops.countP ProfilerOp.isStart ∧
    s.frame_count ≤ (applyOp s op).frame_count := by
  refine ⟨?_, (applyOp_fields s op).2⟩
  have h := runOps_frame_count ops (PerformanceProfiler.init maxSamples t0)
  simpa [PerformanceProfiler.init] using h

/-- C5: with an empty frame time window both get_fps and
get_average_frame_time return the fallback 0.0 (no division is reached),
and get_memory_usage and get_cpu_usage return 0.0 on empty windows. -/
theorem empty_window_defaults (s : PerformanceProfiler) :
    (s.frame_times = [] → s.get_fps = 0 ∧ s.get_average_frame_time = 0) ∧
    (s.memory_usage = [] → s.get_memory_usage = 0) ∧
    (s.cpu_usage = [] → s.get_cpu_usage = 0) := by
  refine ⟨fun h => ⟨?_, ?_⟩, fun h => ?_, fun h => ?_⟩ <;>
    simp [PerformanceProfiler.get_fps, PerformanceProfiler.get_average_frame_time,
      PerformanceProfiler.get_memory_usage, PerformanceProfiler.get_cpu_usage, h]

/-- C5 witness: the fallbacks evaluated on the freshly constructed
profiler, whose three windows are empty. -/
theorem empty_window_defaults_witness :
    ((PerformanceProfiler.init 60 0).get_fps = 0 ∧
      (PerformanceProfiler.init 60 0).get_average_frame_time = 0) ∧
    (PerformanceProfiler.init 60 0).get_memory_usage = 0 ∧
    (PerformanceProfiler.init 60 0).get_cpu_usage = 0 :=
  ⟨(empty_window_defaults (PerformanceProfiler.init 60 0)).1 rfl,
   (empty_window_defaults (PerformanceProfiler.init 60 0)).2.1 rfl,
   (empty_window_defaults (PerformanceProfiler.init 60 0)).2.2 rfl⟩

/-- C1 counterexample: a failing memory query makes end_frame hand the
exception to the caller and leaves the state without any substituted
default sample, contradicting the claimed local recovery. -/
theorem end_frame_error_counterexample :
    ((PerformanceProfiler.init 60 0).end_frame (Except.error "OSError")
        (Except.ok 5)).2 = some "OSError" ∧
    ((PerformanceProfiler.init 60 0).end_frame (Except.error "OSError")
        (Except.ok 5)).1 = PerformanceProfiler.init 60 0 :=
  ⟨rfl, rfl⟩

/-- C1 amended: end_frame performs no local recovery: a failing memory
query propagates its exception with no sample appended; after a
successful memory query a failing CPU query still propagates, keeping the
memory append; only when both queries succeed does the call finish
normally with both samples appended. -/
theorem end_frame_error_propagation (s : PerformanceProfiler) (e : String)
    (q : Except String ℚ) (m c : ℚ) :
    s.end_frame (Except.error e) q = (s, some e) ∧
    s.end_frame (Except.ok m) (Except.error e) =
      ({ s with memory_usage := dequeAppend s.max_samples s.memory_usage m },
        some e) ∧
    s.end_frame (Except.ok m) (Except.ok c) =
      ({ s with memory_usage := dequeAppend s.max_samples s.memory_usage m,
                cpu_usage := dequeAppend s.max_samples s.cpu_usage c }, none) :=
  ⟨rfl, rfl, rfl⟩

lemma strData_append (a b : String) : (a ++ b).data = a.data ++ b.data := rfl

lemma strExt {a b : String} (h : a.data = b.data) : a = b := by
  cases a
  cases b
  exact congrArg String.mk h

lemma roundHalfEven_intCast (n : ℤ) : roundHalfEven ((n : ℚ)) = n := by
  simp only [roundHalfEven, Int.floor_intCast, sub_self]
  rw [if_pos (by norm_num : (0:ℚ) < 1/2)]

lemma formatFixed_one_150 : formatFixed 1 (150 : ℚ) = "150.0" := by
  have e : ((150 : ℚ) * 10 ^ 1) = ((1500 : ℤ) : ℚ) := by norm_num
  have h : roundHalfEven ((150 : ℚ) * 10 ^ 1) = 1500 := by
    rw [e, roundHalfEven_intCast]
  simp only [formatFixed, h]
  decide

lemma formatFixed_one_zero : formatFixed 1 (0 : ℚ) = "0.0" := by
  have e : ((0 : ℚ) * 10 ^ 1) = ((0 : ℤ) : ℚ) := by norm_num
  have h : roundHalfEven ((0 : ℚ) * 10 ^ 1) = 0 := by
    rw [e, roundHalfEven_intCast]
  simp only [formatFixed, h]
  decide

lemma check_warnings_eq (s : PerformanceProfiler) :
    s.check_performance_warnings =
      (if s.get_fps < s.fps_warning_threshold then
        ["Low FPS detected: " ++ formatFixed 1 s.get_fps ++ " (target: 60+)"]
       else []) ++
      (if s.memory_warning_threshold < s.get_memory_usage then
        ["High memory usage: " ++ formatFixed 1 s.get_memory_usage ++ "MB"]
       else []) ++
      (if s.cpu_warning_threshold < s.get_cpu_usage then
        ["High CPU usage: " ++ formatFixed 1 s.get_cpu_usage ++ "%"]
       else []) := by
  unfold PerformanceProfiler.check_performance_warnings
  simp only [gt_iff_lt]
  split_ifs <;> simp

lemma optimize_of_no_warnings (s : PerformanceProfiler) (g : ℕ)
    (h : s.check_performance_warnings = []) : s.optimize_performance g = [] := by
  unfold PerformanceProfiler.optimize_performance
  rw [h]
  simp

/-- C8: warning thresholds are strict and the checks run independently in
the fixed order FPS, memory, CPU: at fps exactly 30, memory exactly 100
and cpu exactly 80 no warning is emitted, while strict violations of all
three produce the three messages in that order. -/
theorem warning_thresholds_strict (s : PerformanceProfiler)
    (hf : s.fps_warning_threshold = 30) (hm : s.memory_warning_threshold = 100)
    (hc : s.cpu_warning_threshold = 80) :
    (s.get_fps = 30 → s.get_memory_usage = 100 → s.get_cpu_usage = 80 →
      s.check_performance_warnings = []) ∧
    (s.get_fps < 30 → 100 < s.get_memory_usage → 80 < s.get_cpu_usage →
      s.check_performance_warnings =
        ["Low FPS detected: " ++ formatFixed 1 s.get_fps ++ " (target: 60+)",
         "High memory usage: " ++ formatFixed 1 s.get_memory_usage ++ "MB",
         "High CPU usage: " ++ formatFixed 1 s.get_cpu_usage ++ "%"]) := by
  constructor
  · intro h1 h2 h3
    rw [check_warnings_eq, hf, hm, hc, h1, h2, h3]
    simp
  · intro h1 h2 h3
    rw [check_warnings_eq, hf, hm, hc, if_pos h1, if_pos h2, if_pos h3]
    simp

/-- A profiler state sitting exactly on all three thresholds: fps 30,
memory 100 MB, cpu 80 percent. -/
def boundaryState : PerformanceProfiler :=
  { PerformanceProfiler.init 60 0 with
      frame_times := [1/30], memory_usage := [100], cpu_usage := [80],
      frame_count := 2 }

/-- A profiler state strictly violating all three thresholds: fps 1,
memory 150 MB, cpu 90 percent. -/
def hotState : PerformanceProfiler :=
  { PerformanceProfiler.init 60 0 with
      frame_times := [1], memory_usage := [150], cpu_usage := [90],
      frame_count := 2 }

lemma boundaryState_fps : boundaryState.get_fps = 30 := by
  norm_num [boundaryState, PerformanceProfiler.get_fps,
    PerformanceProfiler.init, List.sum_cons, List.sum_nil]

lemma hotState_fps : hotState.get_fps = 1 := by
  norm_num [hotState, PerformanceProfiler.get_fps,
    PerformanceProfiler.init, List.sum_cons, List.sum_nil]

/-- C8 witness: on the boundary state no warning fires; on the violating
state the three warnings appear in the fixed order. -/
theorem warning_thresholds_strict_witness :
    boundaryState.check_performance_warnings = [] ∧
    hotState.check_performance_warnings =
      ["Low FPS detected: " ++ formatFixed 1 hotState.get_fps ++ " (target: 60+)",
       "High memory usage: " ++ formatFixed 1 hotState.get_memory_usage ++ "MB",
       "High CPU usage: " ++ formatFixed 1 hotState.get_cpu_usage ++ "%"] :=
  ⟨(warning_thresholds_strict boundaryState rfl rfl rfl).1
      boundaryState_fps rfl rfl,
   (warning_thresholds_strict hotState rfl rfl rfl).2
      (by rw [hotState_fps]; norm_num) (by norm_num [hotState,
        PerformanceProfiler.get_memory_usage, PerformanceProfiler.init])
      (by norm_num [hotState, PerformanceProfiler.get_cpu_usage,
        PerformanceProfiler.init])⟩

/-- C10: whenever the frame duration window is empty, get_fps reports
0.0, which is below the 30 threshold, so check_performance_warnings opens
with the low FPS warning and in particular is never empty. -/
theorem empty_window_low_fps_warning (s : PerformanceProfiler)
    (hf : s.fps_warning_threshold = 30) (h : s.frame_times = []) :
    s.check_performance_warnings ≠ [] ∧
    s.check_performance_warnings.head? =
      some "Low FPS detected: 0.0 (target: 60+)" := by
  have hfps : s.get_fps = 0 := by
    simp [PerformanceProfiler.get_fps, h]
  rw [check_warnings_eq, hf, hfps, formatFixed_one_zero,
    if_pos (by norm_num : (0:ℚ) < 30)]
  constructor
  · simp
  · simp

/-- C10 witness: the freshly constructed profiler already reports the
low FPS warning. -/
theorem empty_window_low_fps_warning_witness :
    (PerformanceProfiler.init 60 0).check_performance_warnings ≠ [] ∧
    (PerformanceProfiler.init 60 0).check_performance_warnings.head? =
      some "Low FPS detected: 0.0 (target: 60+)" :=
  empty_window_low_fps_warning (PerformanceProfiler.init 60 0) rfl rfl

/-- A fresh profiler into which only a most recent memory sample of
150 MB has been injected. -/
def memOnlyState : PerformanceProfiler :=
  { PerformanceProfiler.init 60 0 with memory_usage := [150] }

/-- C2 counterexample: on a profiler state whose most recent memory
sample is 150 MB but which is otherwise fresh, check_performance_warnings
returns two warnings, not exactly one: the empty frame window makes
get_fps report 0.0, which also trips the low FPS check. -/
theorem memory_scenario_counterexample :
    memOnlyState.get_memory_usage = 150 ∧
    memOnlyState.check_performance_warnings.length = 2 := by
  have h0 : memOnlyState.get_fps = 0 := by
    simp [memOnlyState, PerformanceProfiler.get_fps, PerformanceProfiler.init]
  have e1 : memOnlyState.get_memory_usage = 150 := by rfl
  have e2 : memOnlyState.get_cpu_usage = 0 := by rfl
  have e3 : memOnlyState.fps_warning_threshold = 30 := by rfl
  have e4 : memOnlyState.memory_warning_threshold = 100 := by rfl
  have e5 : memOnlyState.cpu_warning_threshold = 80 := by rfl
  refine ⟨e1, ?_⟩
  rw [check_warnings_eq, h0, e1, e2, e3, e4, e5,
    if_pos (by norm_num : (0:ℚ) < 30), if_pos (by norm_num : (100:ℚ) < 150),
    if_neg (by norm_num : ¬ (80:ℚ) < 0)]
  simp

/-- C2 amended: on every profiler state with the constructed thresholds
whose most recent memory sample is 150 MB, whose fps is at least 30 and
whose cpu reading is at most 80, check_performance_warnings returns
exactly one warning, mentioning 150.0MB, and optimize_performance returns
exactly one suggestion reporting the (non negative) number of objects the
garbage collection pass freed. -/
theorem memory_warning_scenario (s : PerformanceProfiler) (gcCollected : ℕ)
    (hf : s.fps_warning_threshold = 30) (hm : s.memory_warning_threshold = 100)
    (hc : s.cpu_warning_threshold = 80) (hmem : s.get_memory_usage = 150)
    (hfps : 30 ≤ s.get_fps) (hcpu : s.get_cpu_usage ≤ 80) :
    s.check_performance_warnings = ["High memory usage: 150.0MB"] ∧
    s.optimize_performance gcCollected =
      ["Garbage collection freed " ++ toString gcCollected ++ " objects"] := by
  have hw : s.check_performance_warnings = ["High memory usage: 150.0MB"] := by
    rw [check_warnings_eq, hf, hm, hc, hmem, formatFixed_one_150,
      if_neg (not_lt.mpr hfps), if_pos (by norm_num : (100:ℚ) < 150),
      if_neg (not_lt.mpr hcpu)]
    simp
  refine ⟨hw, ?_⟩
  unfold PerformanceProfiler.optimize_performance
  rw [hw]
  have hb1 : ([ "High memory usage: 150.0MB" ].any fun w =>
      strContainsSub (strLower w) "memory") = true := by decide
  have hb2 : ([ "High memory usage: 150.0MB" ].any fun w =>
      strContainsSub (strLower w) "fps") = false := by decide
  have hb3 : ([ "High memory usage: 150.0MB" ].any fun w =>
      strContainsSub (strLower w) "cpu") = false := by decide
  simp [hb1, hb2, hb3]

/-- A profiler state with fps 60, a most recent memory sample of 150 MB
and cpu 10 percent. -/
def memHotState : PerformanceProfiler :=
  { PerformanceProfiler.init 60 0 with
      frame_times := [1/60], memory_usage := [150], cpu_usage := [10],
      frame_count := 2 }

lemma memHotState_fps : memHotState.get_fps = 60 := by
  norm_num [memHotState, PerformanceProfiler.get_fps,
    PerformanceProfiler.init, List.sum_cons, List.sum_nil]

/-- C2 witness: the amended scenario evaluated on a state with fps 60,
memory 150 MB, cpu 10 percent, taking 7 as the count of freed objects. -/
theorem memory_warning_scenario_witness :
    memHotState.check_performance_warnings = ["High memory usage: 150.0MB"] ∧
    memHotState.optimize_performance 7 =
      ["Garbage collection freed " ++ toString 7 ++ " objects"] :=
  memory_warning_scenario memHotState 7 rfl rfl rfl rfl
    (by rw [memHotState_fps]; norm_num) (by norm_num [memHotState,
      PerformanceProfiler.get_cpu_usage, PerformanceProfiler.init])

/-- A profiler state whose single frame duration sample is zero, as two
start_frame calls with identical timestamps produce. -/
def zeroFrameState : PerformanceProfiler :=
  { PerformanceProfiler.init 60 0 with frame_times := [0], frame_count := 2 }

/-- C4 counterexample: a state with the non empty frame window [0]
has get_fps 0.0, so fps times average frame time over 1000 is 0, not 1,
refuting the claim for merely non empty windows. -/
theorem fps_inverse_counterexample :
    zeroFrameState.frame_times ≠ [] ∧
    zeroFrameState.get_fps * zeroFrameState.get_average_frame_time / 1000 ≠ 1 := by
  constructor
  · simp [zeroFrameState]
  · have h1 : zeroFrameState.get_fps = 0 := by
      norm_num [zeroFrameState, PerformanceProfiler.get_fps,
        PerformanceProfiler.init, List.sum_cons, List.sum_nil]
    rw [h1]
    norm_num

/-- C4 amended: whenever the average frame time is positive (in
particular the window is non empty), get_fps is its exact reciprocal in
seconds: fps times avgFrameTimeMs over 1000 equals 1; and get_fps is 0.0
when no duration samples exist. -/
theorem get_fps_inverse_of_avg_pos (s : PerformanceProfiler) :
    (0 < s.get_average_frame_time →
      s.get_fps * s.get_average_frame_time / 1000 = 1) ∧
    (s.frame_times = [] → s.get_fps = 0) := by
  constructor
  · intro hpos
    by_cases hne : s.frame_times = []
    · exfalso
      rw [PerformanceProfiler.get_average_frame_time, if_pos hne] at hpos
      exact lt_irrefl 0 hpos
    · simp only [PerformanceProfiler.get_fps,
        PerformanceProfiler.get_average_frame_time, if_neg hne, gt_iff_lt]
          at hpos ⊢
      set a := s.frame_times.sum / (s.frame_times.length : ℚ) with ha
      have hapos : 0 < a := by nlinarith
      have h0 : a ≠ 0 := ne_of_gt hapos
      rw [if_pos hapos]
      field_simp
  · intro h
    simp [PerformanceProfiler.get_fps, h]

/-- A healthy profiler state: fps 60, memory 50 MB, cpu 10 percent. -/
def okState : PerformanceProfiler :=
  { PerformanceProfiler.init 60 0 with
      frame_times := [1/60], memory_usage := [50], cpu_usage := [10],
      frame_count := 2 }

lemma okState_avg : okState.get_average_frame_time = 50/3 := by
  norm_num [okState, PerformanceProfiler.get_average_frame_time,
    PerformanceProfiler.init, List.sum_cons, List.sum_nil]

/-- C4 witness: the reciprocal identity evaluated on a state with a
single 1/60 second frame sample, and the 0.0 fallback on the fresh
profiler. -/
theorem get_fps_inverse_witness :
    (0 < okState.get_average_frame_time ∧
      okState.get_fps * okState.get_average_frame_time / 1000 = 1) ∧
    ((PerformanceProfiler.init 60 0).frame_times = [] ∧
      (PerformanceProfiler.init 60 0).get_fps = 0) :=
  ⟨⟨by rw [okState_avg]; norm_num,
    (get_fps_inverse_of_avg_pos okState).1 (by rw [okState_avg]; norm_num)⟩,
   ⟨rfl, (get_fps_inverse_of_avg_pos (PerformanceProfiler.init 60 0)).2 rfl⟩⟩

lemma label_fps : pythonTitle (underscoresToSpaces "fps") = "Fps" := by decide

lemma label_avg :
    pythonTitle (underscoresToSpaces "avg_frame_time_ms") = "Avg Frame Time Ms" := by
  decide

lemma label_mem : pythonTitle (underscoresToSpaces "memory_mb") = "Memory Mb" := by
  decide

lemma label_cpu : pythonTitle (underscoresToSpaces "cpu_percent") = "Cpu Percent" := by
  decide

lemma label_total :
    pythonTitle (underscoresToSpaces "total_frames") = "Total Frames" := by decide

lemma label_runtime :
    pythonTitle (underscoresToSpaces "runtime_seconds") = "Runtime Seconds" := by
  decide

lemma header_eq : String.mk (List.replicate 40 '=') =
    "========================================" := by decide

set_option maxRecDepth 10000 in
/-- C9: with no warnings pending, export_performance_data produces
exactly the header, the six summary fields each on its own line labelled
by the title cased field name and printed with two decimal places, the
warnings section with its fixed no issues line, and the suggestions
section with its fixed no optimizations line. -/
theorem export_report_format (s : PerformanceProfiler) (now : ℚ)
    (gcCollected : ℕ) (hw : s.check_performance_warnings = []) :
    s.export_performance_data now gcCollected =
      "Alien Invasion Performance Report\n" ++
      "========================================" ++ "\n\n" ++
      ("Fps: " ++ formatFixed 2 s.get_fps ++ "\n") ++
      ("Avg Frame Time Ms: " ++ formatFixed 2 s.get_average_frame_time ++ "\n") ++
      ("Memory Mb: " ++ formatFixed 2 s.get_memory_usage ++ "\n") ++
      ("Cpu Percent: " ++ formatFixed 2 s.get_cpu_usage ++ "\n") ++
      ("Total Frames: " ++ formatFixed 2 ((s.frame_count : ℚ)) ++ "\n") ++
      ("Runtime Seconds: " ++ formatFixed 2 (now - s.start_time) ++ "\n") ++
      ("\nPerformance Warnings:\n" ++ "No performance issues detected.\n") ++
      ("\nOptimization Suggestions:\n" ++ "No optimizations needed.\n") := by
  have hopt := optimize_of_no_warnings s gcCollected hw
  unfold PerformanceProfiler.export_performance_data
  rw [hw, hopt]
  simp only [PerformanceProfiler.get_performance_summary, List.map_cons,
    List.map_nil, List.isEmpty_nil, if_true, String.join, List.foldl_cons,
    List.foldl_nil, label_fps, label_avg, label_mem, label_cpu, label_total,
    label_runtime, header_eq]
  apply strExt
  simp only [strData_append, List.append_assoc, List.nil_append, List.cons_append]

lemma okState_warnings : okState.check_performance_warnings = [] := by
  have h1 : okState.get_fps = 60 := by
    norm_num [okState, PerformanceProfiler.get_fps, PerformanceProfiler.init,
      List.sum_cons, List.sum_nil]
  have h2 : okState.get_memory_usage = 50 := by rfl
  have h3 : okState.get_cpu_usage = 10 := by rfl
  have h4 : okState.fps_warning_threshold = 30 := by rfl
  have h5 : okState.memory_warning_threshold = 100 := by rfl
  have h6 : okState.cpu_warning_threshold = 80 := by rfl
  rw [check_warnings_eq, h1, h2, h3, h4, h5, h6,
    if_neg (by norm_num : ¬ (60:ℚ) < 30), if_neg (by norm_num : ¬ (100:ℚ) < 50),
    if_neg (by norm_num : ¬ (80:ℚ) < 10)]
  simp

/-- C9 witness: the export contract evaluated on the healthy state at
wall clock 10 with zero objects freed. -/
theorem export_report_format_witness :
    okState.check_performance_warnings = [] ∧
    okState.export_performance_data 10 0 =
      "Alien Invasion Performance Report\n" ++
      "========================================" ++ "\n\n" ++
      ("Fps: " ++ formatFixed 2 okState.get_fps ++ "\n") ++
      ("Avg Frame Time Ms: " ++
        formatFixed 2 okState.get_average_frame_time ++ "\n") ++
      ("Memory Mb: " ++ formatFixed 2 okState.get_memory_usage ++ "\n") ++
      ("Cpu Percent: " ++ formatFixed 2 okState.get_cpu_usage ++ "\n") ++
      ("Total Frames: " ++ formatFixed 2 ((okState.frame_count : ℚ)) ++ "\n") ++
      ("Runtime Seconds: " ++ formatFixed 2 ((10:ℚ) - okState.start_time) ++ "\n") ++
      ("\nPerformance Warnings:\n" ++ "No performance issues detected.\n") ++
      ("\nOptimization Suggestions:\n" ++ "No optimizations needed.\n") :=
  ⟨okState_warnings, export_report_format okState 10 0 okState_warnings⟩
